import Mathlib

/-!
Shallow embedding of the inventory consistency engine of
`Backend/routes/products.js` (Express router over a PostgreSQL store):
list, search, history, create, update, delete, CSV import, CSV export.

Modelling conventions:
* the two tables `products` and `inventory_logs` are Lean lists kept in
  insertion order, with the store-assigned SERIAL ids modelled by `nextId` /
  `nextLogId` counters (PostgreSQL SERIAL starts at 1);
* a JS value reaching `Number(·)` is modelled by `JsNum` (NaN or an integer;
  the engine only ever stores integer stock, so the integer-valued fragment of
  JS numbers suffices for the properties below);
* an absent (`undefined`) request-body string field is `Option.none`; JS
  string truthiness (`v || d`) is `jsOr`;
* each `db.query` call is a separate auto-committed statement (the routes
  open no transaction), so the `...Run` variants of create/update also return
  the list of store states observable at statement boundaries;
* timestamps are not modelled: `ORDER BY timestamp DESC` over rows inserted
  one statement at a time is insertion order reversed.
-/

deriving instance DecidableEq for Except

namespace ProductInventory

/-- JS `String.prototype.trim()`: strip leading and trailing whitespace.
Defined over the character list so that it evaluates by kernel reduction
(core `String.trim` reduces through `Substring` loops that do not). -/
def jsTrim (s : String) : String :=
  String.mk (((s.data.dropWhile Char.isWhitespace).reverse.dropWhile
    Char.isWhitespace).reverse)

/-- JS `toLowerCase()` / SQL `LOWER()` on the names this engine stores,
character-wise over the character list. -/
def jsToLower (s : String) : String :=
  String.mk (s.data.map Char.toLower)

/-- Image of the JavaScript `Number(·)` coercion: `NaN` or an integer value
(the integer-valued fragment of JS numbers, which is all the engine stores). -/
inductive JsNum where
  | nan : JsNum
  | int : Int → JsNum
deriving DecidableEq, Repr

/-- JS `x || 0` applied to a `Number(·)` result: `NaN` and `0` are falsy. -/
def JsNum.orZero : JsNum → Int
  | .nan => 0
  | .int n => n

/-- JS `v || d` for a string-or-undefined value: `undefined` and `""` are
falsy, any non-empty string is truthy. -/
def jsOr : Option String → String → String
  | none, _d => _d
  | some s, d => if s = "" then d else s

/-- Decimal digit-string value; `none` when the list is empty or contains a
non-digit character. -/
def parseNatDigits (cs : List Char) : Option Nat :=
  match cs with
  | [] => none
  | _ =>
    cs.foldl
      (fun acc c =>
        acc.bind (fun n => if c.isDigit then some (10 * n + (c.toNat - 48)) else none))
      (some 0)

/-- JS `Number(s)` on a string, restricted to the integer-valued fragment:
whitespace-trimmed; empty string is `0`; an optional minus sign followed by
decimal digits is that integer; anything else is `NaN`. -/
def jsNumberOfString (s : String) : JsNum :=
  let t := jsTrim s
  if t = "" then JsNum.int 0
  else
    match t.data with
    | '-' :: rest =>
      match parseNatDigits rest with
      | some n => JsNum.int (-(n : Int))
      | none => JsNum.nan
    | ds =>
      match parseNatDigits ds with
      | some n => JsNum.int (n : Int)
      | none => JsNum.nan

/-- JS `Number(v)` for a string-or-undefined value: `Number(undefined) = NaN`. -/
def jsNumberOfField : Option String → JsNum
  | none => JsNum.nan
  | some s => jsNumberOfString s

/-- Row of the `products` table. `unit`/`category`/`brand`/`status`/`image`
are nullable TEXT columns (`none` models SQL NULL, written when the route
passes an `undefined` body field through as a statement parameter). -/
structure Product where
  id : Nat
  name : String
  unit : Option String
  category : Option String
  brand : Option String
  stock : Int
  status : Option String
  image : Option String
deriving DecidableEq, Repr

/-- Row of the `inventory_logs` table. -/
structure LogEntry where
  id : Nat
  productId : Nat
  oldStock : Int
  newStock : Int
  changedBy : String
deriving DecidableEq, Repr

/-- Store state: both tables in insertion order plus the SERIAL counters. -/
structure DB where
  products : List Product
  logs : List LogEntry
  nextId : Nat
  nextLogId : Nat
deriving DecidableEq, Repr

/-- Store with empty tables; SERIAL columns assign ids from 1. -/
def emptyDB : DB := { products := [], logs := [], nextId := 1, nextLogId := 1 }

/-- JSON request body of POST `/` and PUT `/:id`:
`{ name, unit, category, brand, stock, status, image, changedBy }`.
String fields are string-or-undefined; `stock` is carried as its
`Number(·)` image, which is all the routes inspect. -/
structure ReqBody where
  name : Option String
  unit : Option String
  category : Option String
  brand : Option String
  stock : JsNum
  status : Option String
  image : Option String
  changedBy : Option String
deriving DecidableEq, Repr

/-- Error responses of the routes, tagged by the spec's taxonomy:
`validation`/`conflict` are the 400 responses, `notFound` the 404 response;
the message is the route's `error` string. -/
inductive ApiError where
  | validation : String → ApiError
  | conflict : String → ApiError
  | notFound : String → ApiError
deriving DecidableEq, Repr

/-- The `stock > 0 ? 'In Stock' : 'Out of Stock'` default used by the create
and import routes. -/
def stockDefaultStatus (stock : Int) : String :=
  if stock > 0 then "In Stock" else "Out of Stock"

/-- One `INSERT INTO inventory_logs ("productId","oldStock","newStock","changedBy")`
statement; the SERIAL id and the store timestamp (insertion order) are assigned
by the store. -/
def appendLog (db : DB) (pid : Nat) (oldS newS : Int) (who : String) : DB :=
  { db with
    logs := db.logs ++
      [{ id := db.nextLogId, productId := pid, oldStock := oldS,
         newStock := newS, changedBy := who }],
    nextLogId := db.nextLogId + 1 }

/-- GET `/`: `SELECT * FROM products ORDER BY id DESC` — ids are assigned in
insertion order, so descending id order is the reversed table. -/
def listProducts (db : DB) : List Product :=
  db.products.reverse

/-- GET `/:id/history`: `SELECT * FROM inventory_logs WHERE "productId" = $1
ORDER BY timestamp DESC` — descending store timestamps over rows inserted one
statement at a time is reversed insertion order. -/
def getHistory (db : DB) (id : Nat) : List LogEntry :=
  (db.logs.filter (fun l => l.productId == id)).reverse

/-- POST `/` (create), with the list of store states observable at statement
boundaries (each `db.query` is auto-committed on its own; the route opens no
transaction). Steps, in source order: require `name` to be a string with
non-blank trim; `parsedStock = Number(stock) || 0`, rejected when negative;
reject when some row has `LOWER(name)` equal to the untrimmed lowercased
input name; INSERT the row (`status` and `image` defaulted by truthiness);
when `parsedStock > 0`, INSERT an `inventory_logs` row `(0, parsedStock)`
attributed to `changedBy || 'admin'`. -/
def createProductRun (db : DB) (body : ReqBody) :
    Except ApiError (DB × Product) × List DB :=
  match body.name with
  | none => (.error (.validation "Name is required"), [db])
  | some name =>
    if jsTrim name = "" then (.error (.validation "Name is required"), [db])
    else
      let parsedStock := body.stock.orZero
      if parsedStock < 0 then (.error (.validation "Stock must be >= 0"), [db])
      else if db.products.any (fun p => jsToLower p.name == jsToLower name) then
        (.error (.conflict "Product name already exists"), [db])
      else
        let p : Product :=
          { id := db.nextId, name := name, unit := body.unit,
            category := body.category, brand := body.brand,
            stock := parsedStock,
            status := some (jsOr body.status (stockDefaultStatus parsedStock)),
            image := some (jsOr body.image "") }
        let db1 : DB :=
          { db with products := db.products ++ [p], nextId := db.nextId + 1 }
        if parsedStock > 0 then
          let db2 := appendLog db1 p.id 0 parsedStock (jsOr body.changedBy "admin")
          (.ok (db2, p), [db, db1, db2])
        else (.ok (db1, p), [db, db1])

/-- POST `/` (create): the route's response. -/
def createProduct (db : DB) (body : ReqBody) : Except ApiError (DB × Product) :=
  (createProductRun db body).1

/-- The `UPDATE products SET ... WHERE id = $8` statement: replaces the row
with matching id (`updatedAt` refresh is not modelled). -/
def applyUpdateRow (db : DB) (id : Nat) (newP : Product) : DB :=
  { db with products := db.products.map (fun p => if p.id = id then newP else p) }

/-- PUT `/:id` (update), with the observable statement-boundary states (no
transaction in the route). Steps, in source order: require `name` as in
create; `parsedStock = Number(stock)`, rejected when NaN or negative; reject
when another row (`id != $2`) has equal `LOWER(name)`; 404 when no row has
this id; UPDATE the row with the supplied fields; when the old stock differs
from `parsedStock`, INSERT an `inventory_logs` row attributed to
`changedBy || 'admin'`; respond with the re-read updated row. -/
def updateProductRun (db : DB) (id : Nat) (body : ReqBody) :
    Except ApiError (DB × Product) × List DB :=
  match body.name with
  | none => (.error (.validation "Name is required"), [db])
  | some name =>
    if jsTrim name = "" then (.error (.validation "Name is required"), [db])
    else
      match body.stock with
      | .nan => (.error (.validation "Stock must be a number >= 0"), [db])
      | .int parsedStock =>
        if parsedStock < 0 then
          (.error (.validation "Stock must be a number >= 0"), [db])
        else if db.products.any
            (fun p => jsToLower p.name == jsToLower name && p.id != id) then
          (.error (.conflict "Product name already exists"), [db])
        else
          match db.products.find? (fun p => p.id == id) with
          | none => (.error (.notFound "Product not found"), [db])
          | some old =>
            let newP : Product :=
              { id := id, name := name, unit := body.unit,
                category := body.category, brand := body.brand,
                stock := parsedStock, status := body.status, image := body.image }
            let db1 := applyUpdateRow db id newP
            if old.stock = parsedStock then (.ok (db1, newP), [db, db1])
            else
              let db2 := appendLog db1 id old.stock parsedStock
                (jsOr body.changedBy "admin")
              (.ok (db2, newP), [db, db1, db2])

/-- PUT `/:id` (update): the route's response. -/
def updateProduct (db : DB) (id : Nat) (body : ReqBody) :
    Except ApiError (DB × Product) :=
  (updateProductRun db id body).1

/-- Modelled from the spec: the store schema (`Backend/db.js`, whose code is
not under `src/Backend`) declares
`FOREIGN KEY("productId") REFERENCES products(id) ON DELETE CASCADE` on
`inventory_logs` (as quoted in the repository's Supabase setup guide), so the
store's single `DELETE FROM products WHERE id = $1` statement also removes
every `inventory_logs` row referencing the deleted product — spec §4.1:
Delete "removes the Product and cascades deletion of all its StockLogEntry
rows". -/
def storeDeleteCascade (db : DB) (id : Nat) : DB :=
  { db with
    products := db.products.filter (fun p => p.id != id),
    logs := db.logs.filter (fun l => l.productId != id) }

/-- DELETE `/:id`: one DELETE statement on `products` (cascading per the
store schema), then respond `{ deleted: id }` unconditionally. -/
def deleteProduct (db : DB) (id : Nat) : DB × Nat :=
  (storeDeleteCascade db id, id)

/-- One parsed CSV record of POST `/import`: `csv-parser` produces string
fields keyed by the header, a field being absent (`undefined`) when the
header lacks that column. -/
structure ImportRow where
  name : Option String
  unit : Option String
  category : Option String
  brand : Option String
  stock : Option String
  status : Option String
  image : Option String
deriving DecidableEq, Repr

/-- An element of the import route's `duplicates` array: `{ name, existingId }`. -/
structure DupEntry where
  name : String
  existingId : Nat
deriving DecidableEq, Repr

/-- The import route's response `{ added, skipped, duplicates }`. -/
structure ImportResult where
  added : Nat
  skipped : Nat
  duplicates : List DupEntry
deriving DecidableEq, Repr

/-- One iteration of the import route's `for (const row of results)` loop:
trim `name = (row.name || '').trim()`, skip silently when blank; default the
string fields by truthiness and parse `stock = Number(row.stock) || 0`; when
some existing row matches `LOWER(name)`, record `{name, existingId}` (the
first matching row's id) and skip; otherwise INSERT and count as added. -/
def importOne (db : DB) (acc : ImportResult) (row : ImportRow) :
    DB × ImportResult :=
  let name := jsTrim (jsOr row.name "")
  if name = "" then
    (db, { acc with skipped := acc.skipped + 1 })
  else
    let stock := (jsNumberOfField row.stock).orZero
    match db.products.find? (fun p => jsToLower p.name == jsToLower name) with
    | some p =>
      (db,
       { acc with
         skipped := acc.skipped + 1,
         duplicates := acc.duplicates ++ [{ name := name, existingId := p.id }] })
    | none =>
      let newP : Product :=
        { id := db.nextId, name := name,
          unit := some (jsOr row.unit ""),
          category := some (jsOr row.category ""),
          brand := some (jsOr row.brand ""),
          stock := stock,
          status := some (jsOr row.status (stockDefaultStatus stock)),
          image := some (jsOr row.image "") }
      ({ db with products := db.products ++ [newP], nextId := db.nextId + 1 },
       { acc with added := acc.added + 1 })

/-- The import loop over the remaining rows, threading the store state and
the `{added, skipped, duplicates}` accumulators in arrival order. -/
def importLoop (s : DB × ImportResult) (rows : List ImportRow) :
    DB × ImportResult :=
  rows.foldl (fun s row => importOne s.1 s.2 row) s

/-- POST `/import`: process every parsed row in arrival order starting from
zero counters, then respond `{ added, skipped, duplicates }`. -/
def importProducts (db : DB) (rows : List ImportRow) : DB × ImportResult :=
  importLoop (db, { added := 0, skipped := 0, duplicates := [] }) rows

/-- One record of the export projection
`SELECT name, unit, category, brand, stock, status, image`. Fields are the
strings rendered into the CSV; a NULL column renders as the empty string. -/
structure ExportRow where
  name : String
  unit : String
  category : String
  brand : String
  stock : Int
  status : String
  image : String
deriving DecidableEq, Repr

/-- CSV rendering of a nullable TEXT column: NULL becomes the empty string. -/
def renderOpt : Option String → String
  | none => ""
  | some s => s

/-- GET `/export`: `SELECT name, unit, category, brand, stock, status, image
FROM products ORDER BY id` — ids are assigned in insertion order, so ascending
id order is the table order. -/
def exportProducts (db : DB) : List ExportRow :=
  db.products.map (fun p =>
    { name := p.name, unit := renderOpt p.unit, category := renderOpt p.category,
      brand := renderOpt p.brand, stock := p.stock,
      status := renderOpt p.status, image := renderOpt p.image })

/-- Re-parsing an exported CSV record with `csv-parser`: every column is
present in the header, so every field comes back as the written string, the
integer `stock` as its decimal rendering (the CSV text layer is the external
(de)serialization collaborator and round-trips field strings verbatim). -/
def ExportRow.toImportRow (r : ExportRow) : ImportRow :=
  { name := some r.name, unit := some r.unit, category := some r.category,
    brand := some r.brand, stock := some (toString r.stock),
    status := some r.status, image := some r.image }


/-! Helper lemmas: inversion principles for the mutating routes and list facts
used by the claim theorems below. -/


lemma createProductRun_ok (db : DB) (body : ReqBody) (db' : DB) (p : Product) (trace : List DB)
    (h : createProductRun db body = (Except.ok (db', p), trace)) :
    ∃ name, body.name = some name ∧ jsTrim name ≠ "" ∧
      ¬ body.stock.orZero < 0 ∧
      db.products.any (fun q => jsToLower q.name == jsToLower name) = false ∧
      p = { id := db.nextId, name := name, unit := body.unit, category := body.category,
            brand := body.brand, stock := body.stock.orZero,
            status := some (jsOr body.status (stockDefaultStatus body.stock.orZero)),
            image := some (jsOr body.image "") } ∧
      ((body.stock.orZero > 0 ∧
        db' = appendLog { db with products := db.products ++ [p], nextId := db.nextId + 1 }
                db.nextId 0 body.stock.orZero (jsOr body.changedBy "admin") ∧
        trace = [db, { db with products := db.products ++ [p], nextId := db.nextId + 1 }, db']) ∨
       (¬ body.stock.orZero > 0 ∧
        db' = { db with products := db.products ++ [p], nextId := db.nextId + 1 } ∧
        trace = [db, db'])) := by
  cases hn : body.name with
  | none => simp only [createProductRun, hn] at h; simp at h
  | some name =>
    simp only [createProductRun, hn] at h
    split at h
    · simp at h
    · split at h
      · simp at h
      · split at h
        · simp at h
        · split at h
          · next h1 h2 h3 h4 =>
            simp only [Prod.mk.injEq, Except.ok.injEq] at h
            obtain ⟨⟨hdb, hp⟩, htr⟩ := h
            subst hp
            exact ⟨name, rfl, h1, h2, by simpa using h3, rfl,
              Or.inl ⟨h4, hdb.symm, by rw [← htr, ← hdb]⟩⟩
          · next h1 h2 h3 h4 =>
            simp only [Prod.mk.injEq, Except.ok.injEq] at h
            obtain ⟨⟨hdb, hp⟩, htr⟩ := h
            subst hp
            exact ⟨name, rfl, h1, h2, by simpa using h3, rfl,
              Or.inr ⟨h4, hdb.symm, by rw [← htr, ← hdb]⟩⟩


lemma updateProductRun_ok (db : DB) (id : Nat) (body : ReqBody) (db' : DB) (p : Product)
    (trace : List DB)
    (h : updateProductRun db id body = (Except.ok (db', p), trace)) :
    ∃ name b old, body.name = some name ∧ jsTrim name ≠ "" ∧
      body.stock = JsNum.int b ∧ ¬ b < 0 ∧
      db.products.any (fun q => jsToLower q.name == jsToLower name && q.id != id) = false ∧
      db.products.find? (fun q => q.id == id) = some old ∧
      p = { id := id, name := name, unit := body.unit, category := body.category,
            brand := body.brand, stock := b, status := body.status, image := body.image } ∧
      ((old.stock = b ∧ db' = applyUpdateRow db id p ∧
        trace = [db, applyUpdateRow db id p]) ∨
       (old.stock ≠ b ∧
        db' = appendLog (applyUpdateRow db id p) id old.stock b (jsOr body.changedBy "admin") ∧
        trace = [db, applyUpdateRow db id p, db'])) := by
  cases hn : body.name with
  | none => simp [updateProductRun, hn] at h
  | some name =>
    cases hs : body.stock with
    | nan =>
      simp only [updateProductRun, hn, hs] at h
      split at h <;> simp_all
    | int b =>
      simp only [updateProductRun, hn, hs] at h
      split at h
      · simp at h
      · next h1 =>
        split at h
        · simp at h
        · next h2 =>
          split at h
          · simp at h
          · next h3 =>
            split at h
            · simp at h
            · next old hold =>
              split at h
              · next h4 =>
                simp only [Prod.mk.injEq, Except.ok.injEq] at h
                obtain ⟨⟨hdb, hp⟩, htr⟩ := h
                subst hp
                exact ⟨name, b, old, rfl, h1, rfl, h2, by simpa using h3, hold, rfl,
                  Or.inl ⟨h4, hdb.symm, by rw [← htr]⟩⟩
              · next h4 =>
                simp only [Prod.mk.injEq, Except.ok.injEq] at h
                obtain ⟨⟨hdb, hp⟩, htr⟩ := h
                subst hp
                exact ⟨name, b, old, rfl, h1, rfl, h2, by simpa using h3, hold, rfl,
                  Or.inr ⟨h4, hdb.symm, by rw [← htr, ← hdb]⟩⟩


lemma find?_map_replace (l : List Product) (id : Nat) (old newP : Product)
    (h : l.find? (fun q => q.id == id) = some old) (hid : newP.id = id) :
    (l.map (fun q => if q.id = id then newP else q)).find? (fun q => q.id == id) = some newP := by
  induction l with
  | nil => simp at h
  | cons a l ih =>
    by_cases ha : a.id = id
    · simp only [List.map_cons, if_pos ha]
      exact List.find?_cons_of_pos _ (by simp [hid])
    · rw [List.find?_cons_of_neg _ (by simp [ha])] at h
      simp only [List.map_cons, if_neg ha]
      rw [List.find?_cons_of_neg _ (by simp [ha])]
      exact ih h

lemma find?_self_of_uniq (l : List Product) (p : Product) (hp : p ∈ l)
    (huniq : l.Pairwise (fun a b => jsToLower a.name ≠ jsToLower b.name)) :
    l.find? (fun q => jsToLower q.name == jsToLower p.name) = some p := by
  induction l with
  | nil => simp at hp
  | cons a l ih =>
    rcases List.mem_cons.mp hp with rfl | hmem
    · exact List.find?_cons_of_pos _ (by simp)
    · have hne : jsToLower a.name ≠ jsToLower p.name :=
        (List.pairwise_cons.mp huniq).1 p hmem
      rw [List.find?_cons_of_neg _ (by simpa using hne)]
      exact ih hmem (List.pairwise_cons.mp huniq).2

lemma importLoop_roundtrip (db : DB) (l : List Product) (acc : ImportResult)
    (h : ∀ p ∈ l, jsTrim p.name = p.name ∧ p.name ≠ "" ∧
      db.products.find? (fun q => jsToLower q.name == jsToLower p.name) = some p) :
    importLoop (db, acc)
      (l.map (fun p => ExportRow.toImportRow
        { name := p.name, unit := renderOpt p.unit, category := renderOpt p.category,
          brand := renderOpt p.brand, stock := p.stock,
          status := renderOpt p.status, image := renderOpt p.image })) =
    (db, { added := acc.added, skipped := acc.skipped + l.length,
           duplicates := acc.duplicates ++
             l.map (fun p => { name := p.name, existingId := p.id }) }) := by
  induction l generalizing acc with
  | nil => simp [importLoop]
  | cons p l ih =>
    obtain ⟨htrim, hne, hfind⟩ := h p (List.mem_cons_self _ _)
    have hstep : importOne db acc (ExportRow.toImportRow
        { name := p.name, unit := renderOpt p.unit, category := renderOpt p.category,
          brand := renderOpt p.brand, stock := p.stock,
          status := renderOpt p.status, image := renderOpt p.image }) =
        (db, { acc with
                skipped := acc.skipped + 1,
                duplicates := acc.duplicates ++ [{ name := p.name, existingId := p.id }] }) := by
      simp only [importOne, ExportRow.toImportRow, jsOr]
      rw [if_neg hne, htrim]
      rw [if_neg hne]
      rw [hfind]
    simp only [List.map_cons, importLoop, List.foldl_cons]
    rw [hstep]
    have hrest := ih ({ acc with
                        skipped := acc.skipped + 1,
                        duplicates := acc.duplicates ++ [{ name := p.name, existingId := p.id }] })
      (fun q hq => h q (List.mem_cons_of_mem _ hq))
    simp only [importLoop] at hrest
    rw [hrest]
    simp only [Prod.mk.injEq, ImportResult.mk.injEq, List.length_cons, List.append_assoc,
      List.singleton_append, List.map_cons]
    exact ⟨trivial, trivial, by omega, trivial⟩



/-! Concrete store states and requests used by the counterexamples and
witnesses below. -/

/-- Create request `{name: "Apple", stock: 5}`. -/
def bodyApple : ReqBody :=
  { name := some "Apple", unit := none, category := none, brand := none,
    stock := JsNum.int 5, status := none, image := none, changedBy := none }

/-- Create request `{name: "apple ", stock: 3}` — same name up to case and a
trailing space. -/
def bodyAppleTrailing : ReqBody :=
  { name := some "apple ", unit := none, category := none, brand := none,
    stock := JsNum.int 3, status := none, image := none, changedBy := none }

/-- Create request `{name: "apple", stock: 1}` — same name up to case only. -/
def bodyAppleLower : ReqBody :=
  { name := some "apple", unit := none, category := none, brand := none,
    stock := JsNum.int 1, status := none, image := none, changedBy := none }

/-- The product row created by `bodyApple` on the empty store. -/
def pApple : Product :=
  { id := 1, name := "Apple", unit := none, category := none, brand := none,
    stock := 5, status := some "In Stock", image := some "" }

/-- The audit row created by `bodyApple` on the empty store. -/
def logApple : LogEntry :=
  { id := 1, productId := 1, oldStock := 0, newStock := 5, changedBy := "admin" }

/-- Store after `Create {name: "Apple", stock: 5}` on the empty store. -/
def dbApple : DB :=
  { products := [pApple], logs := [logApple], nextId := 2, nextLogId := 2 }

/-- The product row created by `bodyAppleTrailing` on `dbApple`. -/
def pAppleTrailing : Product :=
  { id := 2, name := "apple ", unit := none, category := none, brand := none,
    stock := 3, status := some "In Stock", image := some "" }

/-- Store after `Create {name: "apple ", stock: 3}` on `dbApple`. -/
def dbAppleTrailing : DB :=
  { products := [pApple, pAppleTrailing],
    logs := [logApple,
             { id := 2, productId := 2, oldStock := 0, newStock := 3,
               changedBy := "admin" }],
    nextId := 3, nextLogId := 3 }

/-- CLAIM C1: the claim says Create trims the name before the case-insensitive
uniqueness comparison and before storage, so `Create "Apple"` then
`Create "apple "` must fail with ConflictError and every stored name carries
no surrounding whitespace. On the code, `Create "apple "` after
`Create "Apple"` SUCCEEDS — the route compares `LOWER(name)` of the untrimmed
input (`"apple " ≠ "apple"`) and stores the name untrimmed, so the stored row
keeps its trailing space. -/
theorem C1_counterexample :
    createProduct emptyDB bodyApple = Except.ok (dbApple, pApple) ∧
    createProduct dbApple bodyAppleTrailing =
      Except.ok (dbAppleTrailing, pAppleTrailing) ∧
    pAppleTrailing.name = "apple " ∧ jsTrim pAppleTrailing.name = "apple" := by
  decide

/-- CLAIM C1 (amended): Create and Update compare names case-insensitively but
WITHOUT trimming, and Create stores the name exactly as given (the trim is
used only to reject blank names; only Import trims). A later Create, or an
Update of a different id, whose name equals a stored name up to letter case
alone fails with the conflict error; a name differing by surrounding
whitespace does not conflict and is stored with its whitespace. -/
theorem C1_untrimmed_uniqueness (db : DB) (body : ReqBody) :
    (∀ db' p n, body.name = some n → createProduct db body = Except.ok (db', p) →
      p.name = n) ∧
    (∀ n, body.name = some n → jsTrim n ≠ "" → ¬ body.stock.orZero < 0 →
      (∃ q ∈ db.products, jsToLower q.name = jsToLower n) →
      createProduct db body = Except.error (ApiError.conflict "Product name already exists")) ∧
    (∀ id n b, body.name = some n → jsTrim n ≠ "" → body.stock = JsNum.int b → ¬ b < 0 →
      (∃ q ∈ db.products, jsToLower q.name = jsToLower n ∧ q.id ≠ id) →
      updateProduct db id body = Except.error (ApiError.conflict "Product name already exists")) := by
  refine ⟨?_, ?_, ?_⟩
  · intro db' p n hn h
    rcases hc : createProductRun db body with ⟨res, trace⟩
    have hres : res = Except.ok (db', p) := by
      have h2 := h; unfold createProduct at h2; rw [hc] at h2; exact h2
    subst hres
    obtain ⟨name, hname, -, -, -, hp, -⟩ := createProductRun_ok db body db' p trace hc
    rw [hn] at hname
    cases hname
    rw [hp]
  · intro n hn hne hnneg hex
    obtain ⟨q, hq, hql⟩ := hex
    have hany : db.products.any (fun p => jsToLower p.name == jsToLower n) = true :=
      List.any_eq_true.mpr ⟨q, hq, by simpa using hql⟩
    simp only [createProduct, createProductRun, hn]
    rw [if_neg hne, if_neg hnneg, if_pos hany]
  · intro id n b hn hne hb hbneg hex
    obtain ⟨q, hq, hql⟩ := hex
    have hany : db.products.any
        (fun p => jsToLower p.name == jsToLower n && p.id != id) = true :=
      List.any_eq_true.mpr ⟨q, hq, by simp [hql.1, hql.2]⟩
    simp only [updateProduct, updateProductRun, hn, hb]
    rw [if_neg hne, if_neg hbneg, if_pos hany]

/-- CLAIM C1 (witness): the amended theorem at concrete inputs — the stored
name is the untrimmed `"Apple"`, and a Create / an Update whose name differs
from a stored one by case alone is rejected with the conflict error. -/
theorem C1_untrimmed_uniqueness_witness :
    pApple.name = "Apple" ∧
    createProduct dbApple bodyAppleLower =
      Except.error (ApiError.conflict "Product name already exists") ∧
    updateProduct dbAppleTrailing 2 bodyAppleLower =
      Except.error (ApiError.conflict "Product name already exists") :=
  ⟨(C1_untrimmed_uniqueness emptyDB bodyApple).1 dbApple pApple "Apple" rfl (by decide),
   (C1_untrimmed_uniqueness dbApple bodyAppleLower).2.1 "apple" rfl (by decide)
     (by decide) ⟨pApple, by decide, by decide⟩,
   (C1_untrimmed_uniqueness dbAppleTrailing bodyAppleLower).2.2 2 "apple" 1 rfl
     (by decide) rfl (by decide) ⟨pApple, by decide, by decide⟩⟩

/-- CLAIM C2: Delete removes the product row and (by the store's
`ON DELETE CASCADE` foreign key) every `inventory_logs` row referencing it,
so History of the deleted id is empty right after the delete; rows of other
products survive. -/
theorem C2_delete_cascades_history_empty (db : DB) (id : Nat) :
    getHistory (deleteProduct db id).1 id = [] ∧
    (∀ p ∈ (deleteProduct db id).1.products, p.id ≠ id) ∧
    (∀ l ∈ (deleteProduct db id).1.logs, l.productId ≠ id) ∧
    (∀ p ∈ db.products, p.id ≠ id → p ∈ (deleteProduct db id).1.products) := by
  refine ⟨?_, ?_, ?_, ?_⟩
  · simp [getHistory, deleteProduct, storeDeleteCascade, List.filter_filter]
  · intro p hp
    have h2 : p ∈ db.products ∧ ¬ p.id = id := by
      simpa [deleteProduct, storeDeleteCascade] using hp
    exact h2.2
  · intro l hl
    have h2 : l ∈ db.logs ∧ ¬ l.productId = id := by
      simpa [deleteProduct, storeDeleteCascade] using hl
    exact h2.2
  · intro p hp hne
    simp only [deleteProduct, storeDeleteCascade]
    exact List.mem_filter.mpr ⟨hp, by simpa using hne⟩

/-- CLAIM C2 (witness): deleting product 1 of `dbApple` leaves an empty
history for id 1, and a row with a different id survives a delete. -/
theorem C2_delete_cascades_history_empty_witness :
    getHistory (deleteProduct dbApple 1).1 1 = [] ∧
    pApple ∈ (deleteProduct dbAppleTrailing 2).1.products :=
  ⟨(C2_delete_cascades_history_empty dbApple 1).1,
   (C2_delete_cascades_history_empty dbAppleTrailing 2).2.2.2 pApple (by decide) (by decide)⟩

/-- CLAIM C9: Delete responds with the requested id unconditionally, a second
Delete of the same id is a no-op returning the same confirmation (never an
error), and deleting an id that references no live product leaves the product
table unchanged. -/
theorem C9_delete_idempotent (db : DB) (id : Nat) :
    (deleteProduct db id).2 = id ∧
    deleteProduct (deleteProduct db id).1 id = ((deleteProduct db id).1, id) ∧
    ((∀ p ∈ db.products, p.id ≠ id) → (deleteProduct db id).1.products = db.products) := by
  refine ⟨rfl, ?_, ?_⟩
  · simp [deleteProduct, storeDeleteCascade, List.filter_filter]
  · intro h
    simp only [deleteProduct, storeDeleteCascade]
    exact List.filter_eq_self.mpr (fun a ha => by simpa using h a ha)

/-- CLAIM C9 (witness): deleting the absent id 2 from `dbApple` keeps the
product table unchanged, and the idempotence equation at id 1. -/
theorem C9_delete_idempotent_witness :
    (deleteProduct dbApple 2).1.products = dbApple.products ∧
    deleteProduct (deleteProduct dbApple 1).1 1 = ((deleteProduct dbApple 1).1, 1) :=
  ⟨(C9_delete_idempotent dbApple 2).2.2 (by decide),
   (C9_delete_idempotent dbApple 1).2.1⟩


/-- Store holding one product `"A"` with stock 5 and an empty ledger. -/
def pA5 : Product :=
  { id := 1, name := "A", unit := none, category := none, brand := none,
    stock := 5, status := some "In Stock", image := some "" }

/-- Store holding `pA5` only. -/
def dbA5 : DB := { products := [pA5], logs := [], nextId := 2, nextLogId := 1 }

/-- Update request `{name: "A", stock: 7}` for product 1 of `dbA5`. -/
def bodyA7 : ReqBody :=
  { name := some "A", unit := none, category := none, brand := none,
    stock := JsNum.int 7, status := some "In Stock", image := some "",
    changedBy := none }

/-- Update request `{name: "A", stock: 5}` — same stock as stored. -/
def bodyA5same : ReqBody :=
  { name := some "A", unit := none, category := none, brand := none,
    stock := JsNum.int 5, status := some "In Stock", image := some "",
    changedBy := none }

/-- The row of product 1 after the `bodyA7` update. -/
def pA7 : Product :=
  { id := 1, name := "A", unit := none, category := none, brand := none,
    stock := 7, status := some "In Stock", image := some "" }

/-- Store state after the UPDATE statement of the `bodyA7` call but before its
log INSERT: the stock change is committed, the ledger still empty. -/
def dbA7mid : DB := { products := [pA7], logs := [], nextId := 2, nextLogId := 1 }

/-- The audit row of the 5 → 7 transition. -/
def logA57 : LogEntry :=
  { id := 1, productId := 1, oldStock := 5, newStock := 7, changedBy := "admin" }

/-- Store state after the `bodyA7` update call completes. -/
def dbA7fin : DB :=
  { products := [pA7], logs := [logA57], nextId := 2, nextLogId := 2 }

/-- CLAIM C3: the claim says the product mutation and its ledger append happen
in one transactional unit, so no state with the product change committed but
the audit entry missing is ever observable. The route issues them as two
separate auto-committed statements with no transaction: in the update
`{stock: 5 → 7}` on `dbA5`, the statement-boundary trace contains the state
`dbA7mid`, in which product 1 already has stock 7 while the ledger is still
empty — exactly the state the claim rules out. -/
theorem C3_counterexample :
    updateProductRun dbA5 1 bodyA7 =
      (Except.ok (dbA7fin, pA7), [dbA5, dbA7mid, dbA7fin]) ∧
    dbA7mid.products = [pA7] ∧ pA7.stock = 7 ∧ pA5.stock = 5 ∧
    dbA7mid.logs = [] := by
  decide

/-- CLAIM C3 (amended): each statement is individually atomic, but the
product write and the ledger append of a single Create/Update are separate
auto-committed statements (the routes open no transaction). For every
stock-changing Update there is an observable statement-boundary state whose
ledger is still the pre-call ledger while the product row already carries the
new value, and likewise for every stock-logging Create. -/
theorem C3_no_transactional_pairing (db : DB) (id : Nat) (body : ReqBody)
    (db2 : DB) (p old : Product) :
    (updateProduct db id body = Except.ok (db2, p) →
      db.products.find? (fun q => q.id == id) = some old →
      old.stock ≠ p.stock →
      applyUpdateRow db id p ∈ (updateProductRun db id body).2 ∧
      (applyUpdateRow db id p).logs = db.logs ∧
      (applyUpdateRow db id p).products.find? (fun q => q.id == id) = some p) ∧
    (∀ dbc q, createProduct db body = Except.ok (dbc, q) → q.stock > 0 →
      ∃ d ∈ (createProductRun db body).2, d.logs = db.logs ∧ q ∈ d.products) := by
  constructor
  · intro hok hold hchg
    rcases hc : updateProductRun db id body with ⟨res, trace⟩
    have hres : res = Except.ok (db2, p) := by
      have h2 := hok; unfold updateProduct at h2; rw [hc] at h2; exact h2
    subst hres
    obtain ⟨name, b, old2, -, -, -, -, -, hold2, hp, hor⟩ :=
      updateProductRun_ok db id body db2 p trace hc
    rw [hold] at hold2
    cases hold2
    have hpid : p.id = id := by rw [hp]
    have hpstock : p.stock = b := by rw [hp]
    refine ⟨?_, rfl, find?_map_replace db.products id old p hold hpid⟩
    rcases hor with ⟨heq, -, htr⟩ | ⟨-, -, htr⟩
    · exact absurd (hpstock ▸ heq.symm) (by simpa using hchg.symm)
    · rw [htr]; simp
  · intro dbc q hok hpos
    rcases hc : createProductRun db body with ⟨res, trace⟩
    have hres : res = Except.ok (dbc, q) := by
      have h2 := hok; unfold createProduct at h2; rw [hc] at h2; exact h2
    subst hres
    obtain ⟨name, -, -, -, -, -, hor⟩ := createProductRun_ok db body dbc q trace hc
    rcases hor with ⟨-, -, htr⟩ | ⟨-, hdb, htr⟩
    · exact ⟨{ db with products := db.products ++ [q], nextId := db.nextId + 1 },
        by rw [htr]; simp, rfl, by simp⟩
    · exact ⟨dbc, by rw [htr]; simp, by rw [hdb], by rw [hdb]; simp⟩

/-- CLAIM C3 (witness): the amended theorem at the concrete update
`{stock: 5 → 7}` on `dbA5` — the mid-call state has the new stock and the old
(empty) ledger. -/
theorem C3_no_transactional_pairing_witness :
    applyUpdateRow dbA5 1 pA7 ∈ (updateProductRun dbA5 1 bodyA7).2 ∧
    (applyUpdateRow dbA5 1 pA7).logs = dbA5.logs ∧
    (applyUpdateRow dbA5 1 pA7).products.find? (fun q => q.id == 1) = some pA7 :=
  (C3_no_transactional_pairing dbA5 1 bodyA7 dbA7fin pA7 pA5).1
    (by decide) (by decide) (by decide)

/-- Import row `{name: "X", stock: "-3"}`: the stock field parses to a
negative number. -/
def rowNeg : ImportRow :=
  { name := some "X", unit := none, category := none, brand := none,
    stock := some "-3", status := none, image := none }

/-- The product row the import route stores for `rowNeg`. -/
def pXneg : Product :=
  { id := 1, name := "X", unit := some "", category := some "", brand := some "",
    stock := -3, status := some "Out of Stock", image := some "" }

/-- Store after importing `rowNeg` into the empty store. -/
def dbXneg : DB := { products := [pXneg], logs := [], nextId := 2, nextLogId := 1 }

/-- CLAIM C4: the claim says an Import row whose stock field parses to a
negative number never yields a stored product with negative stock. On the
code, `Number("-3") = -3` is truthy, so `Number(row.stock) || 0` keeps `-3`
and the import route inserts it without any negativity check: importing
`{name: "X", stock: "-3"}` stores a product with stock `-3 < 0`, violating
invariant I2. -/
theorem C4_counterexample :
    importProducts emptyDB [rowNeg] =
      (dbXneg, { added := 1, skipped := 0, duplicates := [] }) ∧
    pXneg.stock < 0 := by
  decide

/-- CLAIM C4 (amended): non-negative stock is preserved by Create and Update
(both reject negative stock), but NOT by Import: the import route stores a
successfully parsed negative stock as-is (`0` is substituted only when the
parse fails or the field is absent/empty), so invariant I2 can be broken by
Import alone. -/
theorem C4_nonneg_create_update_only :
    (∀ db body db' p, createProduct db body = Except.ok (db', p) →
      (∀ q ∈ db.products, 0 ≤ q.stock) → ∀ q ∈ db'.products, 0 ≤ q.stock) ∧
    (∀ db id body db' p, updateProduct db id body = Except.ok (db', p) →
      (∀ q ∈ db.products, 0 ≤ q.stock) → ∀ q ∈ db'.products, 0 ≤ q.stock) ∧
    (importProducts emptyDB [rowNeg]).1.products.map Product.stock = [-3] := by
  refine ⟨?_, ?_, by decide⟩
  · intro db body db' p hok hpre q hq
    rcases hc : createProductRun db body with ⟨res, trace⟩
    have hres : res = Except.ok (db', p) := by
      have h2 := hok; unfold createProduct at h2; rw [hc] at h2; exact h2
    subst hres
    obtain ⟨name, -, -, hnneg, -, hp, hor⟩ :=
      createProductRun_ok db body db' p trace hc
    have hps : 0 ≤ p.stock := by rw [hp]; simpa using Int.not_lt.mp hnneg
    have hprods : db'.products = db.products ++ [p] := by
      rcases hor with ⟨-, hdb, -⟩ | ⟨-, hdb, -⟩ <;> simp [hdb, appendLog]
    rw [hprods] at hq
    rcases List.mem_append.mp hq with hmem | hmem
    · exact hpre q hmem
    · rw [List.mem_singleton.mp hmem]; exact hps
  · intro db id body db' p hok hpre q hq
    rcases hc : updateProductRun db id body with ⟨res, trace⟩
    have hres : res = Except.ok (db', p) := by
      have h2 := hok; unfold updateProduct at h2; rw [hc] at h2; exact h2
    subst hres
    obtain ⟨name, b, old, -, -, -, hbneg, -, -, hp, hor⟩ :=
      updateProductRun_ok db id body db' p trace hc
    have hps : 0 ≤ p.stock := by rw [hp]; simpa using Int.not_lt.mp hbneg
    have hprods : db'.products =
        db.products.map (fun r => if r.id = id then p else r) := by
      rcases hor with ⟨-, hdb, -⟩ | ⟨-, hdb, -⟩ <;> simp [hdb, appendLog, applyUpdateRow]
    rw [hprods] at hq
    obtain ⟨a, ha, hqa⟩ := List.mem_map.mp hq
    by_cases hid : a.id = id
    · rw [if_pos hid] at hqa; rw [← hqa]; exact hps
    · rw [if_neg hid] at hqa; rw [← hqa]; exact hpre a ha

/-- CLAIM C4 (witness): the preservation conjuncts at concrete calls — the
rows created by `Create {name:"Apple",stock:5}` and updated by
`{stock:7}` keep non-negative stock — next to the import conjunct's stored
`-3`. -/
theorem C4_nonneg_create_update_only_witness :
    0 ≤ pApple.stock ∧ 0 ≤ pA7.stock ∧
    (importProducts emptyDB [rowNeg]).1.products.map Product.stock = [-3] :=
  ⟨C4_nonneg_create_update_only.1 emptyDB bodyApple dbApple pApple (by decide)
      (by intro q hq; cases hq) pApple (by decide),
   C4_nonneg_create_update_only.2.1 dbA5 1 bodyA7 dbA7fin pA7 (by decide)
      (by intro q hq; fin_cases hq; decide) pA7 (by decide),
   C4_nonneg_create_update_only.2.2⟩

/-- CLAIM C5: a successful Update that changes stock from `a` to `b ≠ a`
appends exactly one ledger row `(oldStock = a, newStock = b)` attributed to
`changedBy` (defaulted to `"admin"` when unspecified, by truthiness); a
successful Update whose resolved stock equals the stored stock appends
nothing. -/
theorem C5_update_appends_one_log (db : DB) (id : Nat) (body : ReqBody)
    (db' : DB) (p old : Product) (b : Int)
    (hok : updateProduct db id body = Except.ok (db', p))
    (hb : body.stock = JsNum.int b)
    (hold : db.products.find? (fun q => q.id == id) = some old) :
    (old.stock ≠ b → db'.logs = db.logs ++
       [{ id := db.nextLogId, productId := id, oldStock := old.stock,
          newStock := b, changedBy := jsOr body.changedBy "admin" }]) ∧
    (old.stock = b → db'.logs = db.logs) := by
  rcases hc : updateProductRun db id body with ⟨res, trace⟩
  have hres : res = Except.ok (db', p) := by
    have h2 := hok; unfold updateProduct at h2; rw [hc] at h2; exact h2
  subst hres
  obtain ⟨name, b2, old2, -, -, hb2, -, -, hold2, -, hor⟩ :=
    updateProductRun_ok db id body db' p trace hc
  rw [hb] at hb2
  cases hb2
  rw [hold] at hold2
  cases hold2
  constructor
  · intro hne
    rcases hor with ⟨heq, -, -⟩ | ⟨-, hdb, -⟩
    · exact absurd heq hne
    · rw [hdb]; rfl
  · intro heq
    rcases hor with ⟨-, hdb, -⟩ | ⟨hne, -, -⟩
    · rw [hdb]; rfl
    · exact absurd heq hne

/-- CLAIM C5 (witness): the theorem at the concrete calls on `dbA5` — the
stock-changing update appends exactly the `(5, 7, "admin")` row, and the
same-stock update leaves the ledger as it was. -/
theorem C5_update_appends_one_log_witness :
    dbA7fin.logs = dbA5.logs ++ [logA57] ∧
    updateProduct dbA5 1 bodyA5same = Except.ok (dbA5, pA5) ∧
    dbA5.logs = dbA5.logs :=
  ⟨(C5_update_appends_one_log dbA5 1 bodyA7 dbA7fin pA7 pA5 7
      (by decide) rfl (by decide)).1 (by decide),
   by decide,
   (C5_update_appends_one_log dbA5 1 bodyA5same dbA5 pA5 pA5 5
      (by decide) rfl (by decide)).2 rfl⟩


/-- Import row `{name: "X", stock: "5"}`. -/
def rowX5 : ImportRow :=
  { name := some "X", unit := none, category := none, brand := none,
    stock := some "5", status := none, image := none }

/-- Import row `{name: "X", stock: "3"}`. -/
def rowX3 : ImportRow :=
  { name := some "X", unit := none, category := none, brand := none,
    stock := some "3", status := none, image := none }

/-- Import row whose name is blank after trimming. -/
def rowBlank : ImportRow :=
  { name := some "   ", unit := none, category := none, brand := none,
    stock := some "5", status := none, image := none }

/-- The product row stored for `rowX5` on the empty store. -/
def pX5 : Product :=
  { id := 1, name := "X", unit := some "", category := some "", brand := some "",
    stock := 5, status := some "In Stock", image := some "" }

/-- Store after importing `rowX5` into the empty store. -/
def dbX : DB := { products := [pX5], logs := [], nextId := 2, nextLogId := 1 }

/-- CLAIM C6: Import processes rows independently in arrival order; a row with
a blank trimmed name is counted as skipped with no error; a row whose name
matches an existing product (including one added earlier in the same batch,
since the loop threads the store state) case-insensitively is counted as
skipped and recorded as `{name, existingId}` of the first matching row;
every other row is inserted and counted as added; the response is
`{added, skipped, duplicates}`. At the spec's example, importing
`[{name:"X",stock:"5"}, {name:"X",stock:"3"}]` into the empty store yields
`added = 1, skipped = 1`, one duplicate entry referencing id 1, and exactly
one product `"X"` with stock 5. -/
theorem C6_import_row_processing :
    (∀ s (r : ImportRow) rs, importLoop s (r :: rs) = importLoop (importOne s.1 s.2 r) rs) ∧
    (∀ db acc row, jsTrim (jsOr row.name "") = "" →
      importOne db acc row = (db, { acc with skipped := acc.skipped + 1 })) ∧
    (∀ db acc row p, jsTrim (jsOr row.name "") ≠ "" →
      db.products.find?
        (fun q => jsToLower q.name == jsToLower (jsTrim (jsOr row.name ""))) = some p →
      importOne db acc row = (db,
        { acc with
          skipped := acc.skipped + 1,
          duplicates := acc.duplicates ++
            [{ name := jsTrim (jsOr row.name ""), existingId := p.id }] })) ∧
    (∀ db acc row, jsTrim (jsOr row.name "") ≠ "" →
      db.products.find?
        (fun q => jsToLower q.name == jsToLower (jsTrim (jsOr row.name ""))) = none →
      importOne db acc row = ({ db with
        products := db.products ++
          [{ id := db.nextId, name := jsTrim (jsOr row.name ""),
             unit := some (jsOr row.unit ""), category := some (jsOr row.category ""),
             brand := some (jsOr row.brand ""),
             stock := (jsNumberOfField row.stock).orZero,
             status := some (jsOr row.status
               (stockDefaultStatus ((jsNumberOfField row.stock).orZero))),
             image := some (jsOr row.image "") }],
        nextId := db.nextId + 1 },
        { acc with added := acc.added + 1 })) ∧
    importProducts emptyDB [rowX5, rowX3] =
      (dbX, { added := 1, skipped := 1, duplicates := [{ name := "X", existingId := 1 }] }) := by
  refine ⟨?_, ?_, ?_, ?_, by decide⟩
  · intro s r rs; rfl
  · intro db acc row h
    simp only [importOne]
    rw [if_pos h]
  · intro db acc row p hne hfind
    simp only [importOne]
    rw [if_neg hne, hfind]
  · intro db acc row hne hfind
    simp only [importOne]
    rw [if_neg hne, hfind]

/-- CLAIM C6 (witness): the per-row cases at concrete inputs — a blank-name
row only bumps `skipped`, and re-importing `"X"` into `dbX` records the
duplicate `{X, 1}`. -/
theorem C6_import_row_processing_witness :
    importOne emptyDB { added := 0, skipped := 0, duplicates := [] } rowBlank =
      (emptyDB, { added := 0, skipped := 1, duplicates := [] }) ∧
    importOne dbX { added := 1, skipped := 0, duplicates := [] } rowX3 =
      (dbX, { added := 1, skipped := 1, duplicates := [{ name := "X", existingId := 1 }] }) :=
  ⟨C6_import_row_processing.2.1 emptyDB
      { added := 0, skipped := 0, duplicates := [] } rowBlank (by decide),
   C6_import_row_processing.2.2.1 dbX
      { added := 1, skipped := 0, duplicates := [] } rowX3 pX5 (by decide) (by decide)⟩

/-- Store holding one product whose stored name `" X"` keeps a leading space
(such a row is creatable, see `C1_counterexample`). -/
def pSpaceX : Product :=
  { id := 1, name := " X", unit := some "", category := some "", brand := some "",
    stock := 2, status := some "In Stock", image := some "" }

/-- Store holding `pSpaceX` only. -/
def dbSpaceX : DB :=
  { products := [pSpaceX], logs := [], nextId := 2, nextLogId := 1 }

/-- The row the re-import of `dbSpaceX`'s own export inserts: the trimmed
name `"X"`. -/
def pXre : Product :=
  { id := 2, name := "X", unit := some "", category := some "", brand := some "",
    stock := 2, status := some "In Stock", image := some "" }

/-- Store after re-importing `dbSpaceX`'s export. -/
def dbSpaceXre : DB :=
  { products := [pSpaceX, pXre], logs := [], nextId := 3, nextLogId := 1 }

/-- CLAIM C7: the claim says re-importing Export's own output yields
`added = 0, skipped = N` whenever all names are unique at export time. On the
code this fails when a stored name carries surrounding whitespace (which
Create permits): `dbSpaceX` holds the single — trivially unique — name
`" X"`, whose exported row is trimmed to `"X"` by the import route, matches
no stored `LOWER(name)`, and is inserted: the round trip yields
`added = 1, skipped = 0` and the catalog grows. -/
theorem C7_counterexample :
    dbSpaceX.products.map Product.name = [" X"] ∧
    importProducts dbSpaceX ((exportProducts dbSpaceX).map ExportRow.toImportRow) =
      (dbSpaceXre, { added := 1, skipped := 0, duplicates := [] }) := by
  decide

/-- CLAIM C7 (amended): Export projects every product in ascending id order
to `{name, unit, category, brand, stock, status, image}` rows without
changing the store, and the round trip holds under the extra premise that
every stored name is already trimmed: if all stored names are non-empty,
carry no surrounding whitespace and are case-insensitively distinct, then
re-importing Export's own output leaves the store unchanged and yields
`added = 0, skipped = N`, each exported row recognized as a duplicate of
itself. -/
theorem C7_export_import_roundtrip (db : DB)
    (htrim : ∀ p ∈ db.products, jsTrim p.name = p.name)
    (hne : ∀ p ∈ db.products, p.name ≠ "")
    (huniq : db.products.Pairwise (fun a b => jsToLower a.name ≠ jsToLower b.name)) :
    importProducts db ((exportProducts db).map ExportRow.toImportRow) =
      (db, { added := 0, skipped := db.products.length,
             duplicates := db.products.map
               (fun p => { name := p.name, existingId := p.id }) }) := by
  have hrows : (exportProducts db).map ExportRow.toImportRow =
      db.products.map (fun p => ExportRow.toImportRow
        { name := p.name, unit := renderOpt p.unit, category := renderOpt p.category,
          brand := renderOpt p.brand, stock := p.stock,
          status := renderOpt p.status, image := renderOpt p.image }) := by
    simp [exportProducts, List.map_map, Function.comp]
  rw [importProducts, hrows]
  have h := importLoop_roundtrip db db.products
    { added := 0, skipped := 0, duplicates := [] }
    (fun p hp => ⟨htrim p hp, hne p hp, find?_self_of_uniq db.products p hp huniq⟩)
  rw [h]
  simp

/-- CLAIM C7 (witness): the amended round trip at `dbX` — its single stored
name `"X"` is trimmed and unique, and re-importing the export yields
`added = 0, skipped = 1` with the self-referencing duplicate entry. -/
theorem C7_export_import_roundtrip_witness :
    importProducts dbX ((exportProducts dbX).map ExportRow.toImportRow) =
      (dbX, { added := 0, skipped := 1,
              duplicates := [{ name := "X", existingId := 1 }] }) := by
  have h := C7_export_import_roundtrip dbX (by decide) (by decide) (by simp [dbX])
  simpa [dbX, pX5] using h

/-- Create request with no usable stock field (`Number(stock)` is NaN, as for
an absent or non-numeric value). -/
def bodyNoStock : ReqBody :=
  { name := some "B", unit := none, category := none, brand := none,
    stock := JsNum.nan, status := none, image := none, changedBy := none }

/-- The row created by `bodyNoStock`: stock coerced to 0. -/
def pB0 : Product :=
  { id := 1, name := "B", unit := none, category := none, brand := none,
    stock := 0, status := some "Out of Stock", image := some "" }

/-- Store after `bodyNoStock` on the empty store — note the empty ledger. -/
def dbB0 : DB := { products := [pB0], logs := [], nextId := 2, nextLogId := 1 }

/-- Create request `{name: "B", stock: -1}`. -/
def bodyNegStock : ReqBody :=
  { name := some "B", unit := none, category := none, brand := none,
    stock := JsNum.int (-1), status := none, image := none, changedBy := none }

/-- CLAIM C8: stock validation is asymmetric. A Create whose `Number(stock)`
is NaN (absent or non-numeric field) that succeeds stores stock 0 and appends
no ledger row; a Create with explicitly negative stock fails validation with
`"Stock must be >= 0"`. An Update fails validation with
`"Stock must be a number >= 0"` whenever `Number(stock)` is NaN (missing or
non-numeric) or negative — Update never silently defaults the stock. -/
theorem C8_stock_validation_asymmetry (db : DB) (body : ReqBody) (id : Nat) :
    (∀ db' p, body.stock = JsNum.nan → createProduct db body = Except.ok (db', p) →
      p.stock = 0 ∧ db'.logs = db.logs) ∧
    (∀ n, body.name = some n → jsTrim n ≠ "" → body.stock.orZero < 0 →
      createProduct db body = Except.error (ApiError.validation "Stock must be >= 0")) ∧
    (∀ n, body.name = some n → jsTrim n ≠ "" →
      (body.stock = JsNum.nan ∨ ∃ k, body.stock = JsNum.int k ∧ k < 0) →
      updateProduct db id body =
        Except.error (ApiError.validation "Stock must be a number >= 0")) := by
  refine ⟨?_, ?_, ?_⟩
  · intro db' p hnan hok
    rcases hc : createProductRun db body with ⟨res, trace⟩
    have hres : res = Except.ok (db', p) := by
      have h2 := hok; unfold createProduct at h2; rw [hc] at h2; exact h2
    subst hres
    obtain ⟨name, -, -, -, -, hp, hor⟩ := createProductRun_ok db body db' p trace hc
    have hzero : body.stock.orZero = 0 := by rw [hnan]; rfl
    have hps : p.stock = 0 := by rw [hp]; simpa using hzero
    rcases hor with ⟨hpos, -, -⟩ | ⟨-, hdb, -⟩
    · rw [hzero] at hpos; exact absurd hpos (by decide)
    · exact ⟨hps, by rw [hdb]⟩
  · intro n hn hne hneg
    simp only [createProduct, createProductRun, hn]
    rw [if_neg hne, if_pos hneg]
  · intro n hn hne hbad
    rcases hbad with hnan | ⟨k, hk, hkneg⟩
    · simp only [updateProduct, updateProductRun, hn, hnan]
      rw [if_neg hne]
    · simp only [updateProduct, updateProductRun, hn, hk]
      rw [if_neg hne, if_pos hkneg]

/-- CLAIM C8 (witness): the asymmetry at concrete inputs — the NaN-stock
Create succeeds with stock 0 and no ledger row, the negative-stock Create is
rejected, and the NaN-stock and negative-stock Updates are rejected. -/
theorem C8_stock_validation_asymmetry_witness :
    (pB0.stock = 0 ∧ dbB0.logs = emptyDB.logs) ∧
    createProduct emptyDB bodyNegStock =
      Except.error (ApiError.validation "Stock must be >= 0") ∧
    updateProduct dbA5 1 bodyNoStock =
      Except.error (ApiError.validation "Stock must be a number >= 0") ∧
    updateProduct dbA5 1 bodyNegStock =
      Except.error (ApiError.validation "Stock must be a number >= 0") :=
  ⟨(C8_stock_validation_asymmetry emptyDB bodyNoStock 1).1 dbB0 pB0 rfl (by decide),
   (C8_stock_validation_asymmetry emptyDB bodyNegStock 1).2.1 "B" rfl (by decide) (by decide),
   (C8_stock_validation_asymmetry dbA5 bodyNoStock 1).2.2 "B" rfl (by decide) (Or.inl rfl),
   (C8_stock_validation_asymmetry dbA5 bodyNegStock 1).2.2 "B" rfl (by decide)
     (Or.inr ⟨-1, rfl, by decide⟩)⟩

/-- Import row with an explicitly empty status and image. -/
def rowEmptyStatus : ImportRow :=
  { name := some "Y", unit := none, category := none, brand := none,
    stock := some "0", status := some "", image := some "" }

/-- CLAIM C10: Create and Import default `status` and `image` by JS
truthiness (`value || default`), not by field presence, so an explicitly
empty-string `status` or `image` is indistinguishable from an absent one:
the stored status is the stock-sign default and the stored image the empty
string. -/
theorem C10_truthiness_defaults (db : DB) (body : ReqBody) (acc : ImportResult)
    (row : ImportRow) :
    createProduct db { body with status := some "" } =
      createProduct db { body with status := none } ∧
    createProduct db { body with image := some "" } =
      createProduct db { body with image := none } ∧
    importOne db acc { row with status := some "" } =
      importOne db acc { row with status := none } ∧
    importOne db acc { row with image := some "" } =
      importOne db acc { row with image := none } ∧
    (∀ db' p, createProduct db body = Except.ok (db', p) → body.status = some "" →
      p.status = some (stockDefaultStatus p.stock)) ∧
    (∀ db' p, createProduct db body = Except.ok (db', p) → body.image = some "" →
      p.image = some "") ∧
    (importProducts emptyDB [rowEmptyStatus]).1.products.map Product.status =
      [some "Out of Stock"] := by
  obtain ⟨nm, u, c, bd, st, stt, im, cb⟩ := body
  obtain ⟨rn, ru, rc, rb, rs, rst, ri⟩ := row
  refine ⟨?_, ?_, ?_, ?_, ?_, ?_, by decide⟩
  · cases nm <;> simp [createProduct, createProductRun, jsOr]
  · cases nm <;> simp [createProduct, createProductRun, jsOr]
  · simp [importOne, jsOr]
  · simp [importOne, jsOr]
  · intro db' p hok hst
    rcases hc : createProductRun db ⟨nm, u, c, bd, st, stt, im, cb⟩ with ⟨res, trace⟩
    have hres : res = Except.ok (db', p) := by
      have h2 := hok; unfold createProduct at h2; rw [hc] at h2; exact h2
    subst hres
    obtain ⟨name, -, -, -, -, hp, -⟩ :=
      createProductRun_ok db ⟨nm, u, c, bd, st, stt, im, cb⟩ db' p trace hc
    simp only at hst
    subst hst
    rw [hp]
    simp [jsOr]
  · intro db' p hok him
    rcases hc : createProductRun db ⟨nm, u, c, bd, st, stt, im, cb⟩ with ⟨res, trace⟩
    have hres : res = Except.ok (db', p) := by
      have h2 := hok; unfold createProduct at h2; rw [hc] at h2; exact h2
    subst hres
    obtain ⟨name, -, -, -, -, hp, -⟩ :=
      createProductRun_ok db ⟨nm, u, c, bd, st, stt, im, cb⟩ db' p trace hc
    simp only at him
    subst him
    rw [hp]
    simp [jsOr]

/-- CLAIM C10 (witness): the truthiness defaults at concrete inputs — an
empty-string status behaves as an absent one, the created row's status is the
stock-sign default, its image the empty string, and the imported
empty-status row stores `"Out of Stock"`. -/
theorem C10_truthiness_defaults_witness :
    createProduct emptyDB { bodyApple with status := some "" } =
      createProduct emptyDB { bodyApple with status := none } ∧
    pApple.status = some (stockDefaultStatus pApple.stock) ∧
    pApple.image = some "" ∧
    (importProducts emptyDB [rowEmptyStatus]).1.products.map Product.status =
      [some "Out of Stock"] :=
  ⟨(C10_truthiness_defaults emptyDB bodyApple
      { added := 0, skipped := 0, duplicates := [] } rowEmptyStatus).1,
   (C10_truthiness_defaults emptyDB
      { bodyApple with status := some "" }
      { added := 0, skipped := 0, duplicates := [] } rowEmptyStatus).2.2.2.2.1
      dbApple pApple (by decide) rfl,
   (C10_truthiness_defaults emptyDB
      { bodyApple with image := some "" }
      { added := 0, skipped := 0, duplicates := [] } rowEmptyStatus).2.2.2.2.2.1
      dbApple pApple (by decide) rfl,
   (C10_truthiness_defaults emptyDB bodyApple
      { added := 0, skipped := 0, duplicates := [] } rowEmptyStatus).2.2.2.2.2.2⟩

end ProductInventory
